import Mathlib

/-!
Shallow embedding of the transparent caching proxy worker (src/index.js).

The worker serves S3-style GET/HEAD/PUT/DELETE/OPTIONS requests over a local
R2 object store, lazily fetching missing objects from an upstream source
store on cache miss and enqueuing best-effort sync events.

Modelling conventions:
- Body streams are opaque identifiers (`Nat`): the JS `ReadableStream` values
  are never inspected by the worker, only passed along, so an identifier
  captures exactly which stream each consumer receives.
- External collaborators (R2 bucket, origin HTTP endpoint, sync queue) are
  oracles inside `Env`: the store contents, the origin's reply per key, and
  boolean failure flags for put/delete/enqueue, plus the store's etag
  function and the current timestamp (`Date` calls are abstracted to the
  `now` string; `toUTCString` rendering is abstracted to the raw timestamp).
- Every externally visible interaction is recorded in an `Effect` trace, and
  each handler returns its result, its trace and the updated store contents.
- JS string truthiness (`null`/empty string are falsy) is `truthyS`;
  `a || b` on nullable strings is `orDefault`.
-/

namespace TransparentProxy

/-- CONFIG.DEFAULT_CACHE_CONTROL from the worker's constant block. -/
def DEFAULT_CACHE_CONTROL : String := "public, max-age=86400"

/-- The httpMetadata record carried by R2 objects and by the simulated
object built in fetchFromSourceStorage. -/
structure HttpMetadata where
  contentType : Option String
  contentLength : Option String
  cacheControl : Option String
deriving DecidableEq

/-- An object as returned by R2_BUCKET.get, and the duck-typed simulated
object built from an origin response. `body` is an opaque stream id. -/
structure R2Object where
  body : Nat
  httpEtag : Option String
  httpMetadata : HttpMetadata
  customMetadata : List (String × String)
  uploaded : Option String
deriving DecidableEq

/-- StorageError from the worker: message, HTTP status, S3 error code. -/
structure StorageError where
  message : String
  status : Nat
  code : String
deriving DecidableEq

/-- What the origin endpoint does for a given key: an HTTP response
(status, headers, body stream id) or a thrown network error. -/
inductive OriginResult
  | resp (status : Nat) (headers : List (String × String)) (body : Nat)
  | netError
deriving DecidableEq

/-- Externally visible interactions, in program order. `ok` records whether
the collaborator succeeded. -/
inductive Effect
  | r2Get (key : String)
  | originFetch (key : String)
  | r2Put (key : String) (body : Nat) (ok : Bool)
  | r2Delete (key : String) (ok : Bool)
  | enqueue (key action timestamp : String) (ok : Bool)
deriving DecidableEq

/-- Body of a wire response: absent (Response(null)), an object body stream,
or the XML error envelope (code, message; RequestId abstracted away). -/
inductive RespBody
  | empty
  | stream (body : Nat)
  | xml (code message : String)
deriving DecidableEq

/-- An HTTP response as produced by the worker. -/
structure WireResponse where
  status : Nat
  headers : List (String × String)
  body : RespBody
deriving DecidableEq

/-- The environment: R2 store contents, origin oracle, effective
configuration (after initializeConfig), collaborator failure flags, the
store's etag assignment and the current time. -/
structure Env where
  r2 : List (String × R2Object)
  origin : String → OriginResult
  endpoint : String
  bucketName : String
  writeTest : String → Bool
  putFails : Bool
  deleteFails : Bool
  enqueueFails : Bool
  etagOf : Nat → String
  now : String

/-- An inbound request: method, URL hostname and pathname, headers, and an
opaque body stream id. -/
structure Request where
  method : String
  hostname : String
  path : String
  headers : List (String × String)
  body : Nat
deriving DecidableEq

/-- ASCII lowercasing of a string, character by character. -/
def lcStr (s : String) : String := String.mk (s.data.map Char.toLower)

/-- Whether s starts with p, on the underlying character lists. -/
def strStarts (s p : String) : Bool := p.data.isPrefixOf s.data

/-- Split a character list at a separator, JS String.split semantics on a
single-character separator (empty input gives one empty segment). -/
def splitSeg (sep : Char) : List Char → List (List Char)
  | [] => [[]]
  | c :: rest =>
    if c = sep then [] :: splitSeg sep rest
    else
      match splitSeg sep rest with
      | [] => [[c]]
      | h :: t => (c :: h) :: t

/-- Case-insensitive header lookup, as JS Headers.get (absent gives none). -/
def hget (hs : List (String × String)) (k : String) : Option String :=
  (hs.find? (fun p => lcStr p.1 = lcStr k)).map (fun p => p.2)

/-- Headers.set: replace any same-named header with the new value. -/
def hset (hs : List (String × String)) (k v : String) : List (String × String) :=
  hs.filter (fun p => lcStr p.1 ≠ lcStr k) ++ [(k, v)]

/-- JS object property assignment m[k] = v (later assignment overrides). -/
def mdSet (m : List (String × String)) (k v : String) : List (String × String) :=
  if m.any (fun p => p.1 = k) then m.map (fun p => if p.1 = k then (k, v) else p)
  else m ++ [(k, v)]

/-- R2 store lookup by exact key. -/
def assocGet (m : List (String × R2Object)) (k : String) : Option R2Object :=
  (m.find? (fun p => p.1 = k)).map (fun p => p.2)

/-- R2 store update: overwrite the key's entry, or append it. -/
def assocSet (m : List (String × R2Object)) (k : String) (v : R2Object) :
    List (String × R2Object) :=
  if m.any (fun p => p.1 = k) then m.map (fun p => if p.1 = k then (k, v) else p)
  else m ++ [(k, v)]

/-- R2 store delete (succeeds whether or not the key is present). -/
def assocRemove (m : List (String × R2Object)) (k : String) :
    List (String × R2Object) :=
  m.filter (fun p => p.1 ≠ k)

/-- JS truthiness of a nullable string: null and the empty string are falsy. -/
def truthyS : Option String → Bool
  | some s => s ≠ ""
  | none => false

/-- JS `v || d` for a nullable string v. -/
def orDefault (v : Option String) (d : String) : String :=
  if truthyS v then v.getD d else d

/-- Object key extraction from the URL pathname:
url.pathname.split('/').filter(p => p).join('/'). -/
def objectKeyOf (path : String) : String :=
  String.intercalate "/"
    (((splitSeg '/' path.data).map String.mk).filter (fun p => p ≠ ""))

/-- fetchFromSourceStorage: returns null when no endpoint is configured;
fetches the origin URL; a non-ok status or a thrown error gives null;
otherwise builds the simulated R2 object tagged source=lazy-loaded. -/
def fetchFromSourceStorage (env : Env) (key : String) :
    Option R2Object × List Effect :=
  if env.endpoint = "" then (none, [])
  else
    match env.origin key with
    | OriginResult.netError => (none, [Effect.originFetch key])
    | OriginResult.resp status headers body =>
      if 200 ≤ status ∧ status < 300 then
        (some { body := body,
                httpEtag := hget headers "ETag",
                httpMetadata :=
                  { contentType := hget headers "Content-Type",
                    contentLength := hget headers "Content-Length",
                    cacheControl := hget headers "Cache-Control" },
                customMetadata := [("source", "lazy-loaded")],
                uploaded := none },
         [Effect.originFetch key])
      else (none, [Effect.originFetch key])

/-- Whether the origin fetch for this key fails (network error or non-2xx). -/
def originFailed (env : Env) (key : String) : Bool :=
  match env.origin key with
  | OriginResult.netError => true
  | OriginResult.resp status _ _ => decide (¬ (200 ≤ status ∧ status < 300))

/-- storeObjectInR2: R2_BUCKET.put of the fetched object's body with its
httpMetadata and its customMetadata extended with lazy-load markers; a put
failure is caught and reported as false. On success the store holds the
object under the key with a store-assigned etag and upload time. -/
def storeObjectInR2 (env : Env) (obj : R2Object) (key : String) :
    Bool × List Effect × List (String × R2Object) :=
  if env.putFails then (false, [Effect.r2Put key obj.body false], env.r2)
  else
    (true, [Effect.r2Put key obj.body true],
      assocSet env.r2 key
        { body := obj.body,
          httpEtag := some (env.etagOf obj.body),
          httpMetadata := obj.httpMetadata,
          customMetadata :=
            mdSet (mdSet obj.customMetadata "lazyLoaded" "true") "lazyLoadedAt" env.now,
          uploaded := some env.now })

/-- queueSyncTask: SYNC_QUEUE.send of the key/action/timestamp record; a
failure is caught and reported as false. -/
def queueSyncTask (env : Env) (key action : String) : Bool × List Effect :=
  if env.enqueueFails then (false, [Effect.enqueue key action env.now false])
  else (true, [Effect.enqueue key action env.now true])

/-- getResponseHeaders: content type (defaulted), optional length and etag,
cache control (defaulted), last-modified (upload time or now), the custom
metadata under x-amz-meta-, and the permissive CORS header. -/
def getResponseHeaders (env : Env) (obj : R2Object) : List (String × String) :=
  let h := hset [] "Content-Type" (orDefault obj.httpMetadata.contentType "application/octet-stream")
  let h := if truthyS obj.httpMetadata.contentLength then
             hset h "Content-Length" (obj.httpMetadata.contentLength.getD "")
           else h
  let h := if truthyS obj.httpEtag then hset h "ETag" (obj.httpEtag.getD "") else h
  let h := hset h "Cache-Control" (orDefault obj.httpMetadata.cacheControl DEFAULT_CACHE_CONTROL)
  let h := hset h "Last-Modified" (match obj.uploaded with | some s => s | none => env.now)
  let h := obj.customMetadata.foldl (fun acc kv => hset acc ("x-amz-meta-" ++ kv.1) kv.2) h
  hset h "Access-Control-Allow-Origin" "*"

/-- Result of a handler: a response or a thrown StorageError. -/
inductive HResult
  | ok (r : WireResponse)
  | err (e : StorageError)
deriving DecidableEq

/-- A handler's outcome: result, effect trace, and R2 store afterwards. -/
structure HOut where
  result : HResult
  effects : List Effect
  r2 : List (String × R2Object)
deriving DecidableEq

/-- The 200 response for a resolved object: HEAD gets no body, GET gets the
object's body stream; both carry getResponseHeaders. -/
def objectResponse (env : Env) (method : String) (obj : R2Object) : WireResponse :=
  if method = "HEAD" then
    { status := 200, headers := getResponseHeaders env obj, body := RespBody.empty }
  else
    { status := 200, headers := getResponseHeaders env obj, body := RespBody.stream obj.body }

/-- handleGetRequest: empty key is NotImplemented(501); otherwise R2 get; on
miss with a configured endpoint, fetch from origin, and on an origin hit
write the object back and enqueue a LAZY_LOADED sync task (both outcomes
ignored); a key found nowhere is NoSuchKey(404). -/
def handleGetRequest (env : Env) (method key : String) : HOut :=
  if key = "" then
    { result := HResult.err
        { message := "Bucket listing not implemented", status := 501, code := "NotImplemented" },
      effects := [], r2 := env.r2 }
  else
    match assocGet env.r2 key with
    | some obj =>
      { result := HResult.ok (objectResponse env method obj),
        effects := [Effect.r2Get key], r2 := env.r2 }
    | none =>
      if env.endpoint = "" then
        { result := HResult.err
            { message := "Object not found", status := 404, code := "NoSuchKey" },
          effects := [Effect.r2Get key], r2 := env.r2 }
      else
        match fetchFromSourceStorage env key with
        | (some obj, fx) =>
          let po := storeObjectInR2 env obj key
          let qo := queueSyncTask env key "LAZY_LOADED"
          { result := HResult.ok (objectResponse env method obj),
            effects := [Effect.r2Get key] ++ fx ++ po.2.1 ++ qo.2,
            r2 := po.2.2 }
        | (none, fx) =>
          { result := HResult.err
              { message := "Object not found", status := 404, code := "NoSuchKey" },
            effects := [Effect.r2Get key] ++ fx, r2 := env.r2 }

/-- The x-amz-meta-* request headers collected into custom metadata
(header names lowercased by JS Headers, prefix of 11 chars stripped). -/
def collectMeta (hs : List (String × String)) : List (String × String) :=
  hs.foldl
    (fun acc kv =>
      if strStarts (lcStr kv.1) "x-amz-meta-" then mdSet acc ((lcStr kv.1).drop 11) kv.2
      else acc) []

/-- handlePutRequest: empty key is InvalidKey(400); otherwise put the request
body with defaulted content type and cache control and the collected custom
metadata; a put failure becomes InternalError(500); on success enqueue an
UPLOADED sync task and answer 200 with the store's etag. -/
def handlePutRequest (env : Env) (req : Request) (key : String) : HOut :=
  if key = "" then
    { result := HResult.err
        { message := "Invalid object key", status := 400, code := "InvalidKey" },
      effects := [], r2 := env.r2 }
  else
    let contentType := orDefault (hget req.headers "Content-Type") "application/octet-stream"
    let cacheControl := orDefault (hget req.headers "Cache-Control") DEFAULT_CACHE_CONTROL
    let metadata := collectMeta req.headers
    if env.putFails then
      { result := HResult.err
          { message := "Upload failed", status := 500, code := "InternalError" },
        effects := [Effect.r2Put key req.body false], r2 := env.r2 }
    else
      let qo := queueSyncTask env key "UPLOADED"
      { result := HResult.ok
          { status := 200,
            headers := [("ETag", env.etagOf req.body), ("Content-Type", "application/xml")],
            body := RespBody.empty },
        effects := [Effect.r2Put key req.body true] ++ qo.2,
        r2 := assocSet env.r2 key
          { body := req.body,
            httpEtag := some (env.etagOf req.body),
            httpMetadata :=
              { contentType := some contentType, contentLength := none,
                cacheControl := some cacheControl },
            customMetadata := metadata,
            uploaded := some env.now } }

/-- handleDeleteRequest: empty key is InvalidKey(400); otherwise delete the
key (no existence check), a failure becoming InternalError(500); on success
enqueue a DELETED sync task and answer 204 with no body. -/
def handleDeleteRequest (env : Env) (key : String) : HOut :=
  if key = "" then
    { result := HResult.err
        { message := "Invalid object key", status := 400, code := "InvalidKey" },
      effects := [], r2 := env.r2 }
  else if env.deleteFails then
    { result := HResult.err
        { message := "Delete failed", status := 500, code := "InternalError" },
      effects := [Effect.r2Delete key false], r2 := env.r2 }
  else
    let qo := queueSyncTask env key "DELETED"
    { result := HResult.ok { status := 204, headers := [], body := RespBody.empty },
      effects := [Effect.r2Delete key true] ++ qo.2,
      r2 := assocRemove env.r2 key }

/-- handleOptionsRequest: the static CORS descriptor. -/
def handleOptionsRequest : WireResponse :=
  { status := 200,
    headers :=
      [("Access-Control-Allow-Origin", "*"),
       ("Access-Control-Allow-Methods", "GET, PUT, DELETE, HEAD, OPTIONS"),
       ("Access-Control-Allow-Headers",
        "Content-Type, Authorization, X-Amz-Date, X-Amz-Content-Sha256, Content-MD5"),
       ("Access-Control-Max-Age", "86400")],
    body := RespBody.empty }

/-- formatErrorResponse: the XML error envelope with the error's status. -/
def formatErrorResponse (e : StorageError) : WireResponse :=
  { status := e.status,
    headers := [("Content-Type", "application/xml")],
    body := RespBody.xml e.code e.message }

/-- The worker's overall outcome: response, effect trace, store afterwards. -/
structure Out where
  response : WireResponse
  effects : List Effect
  r2 : List (String × R2Object)
deriving DecidableEq

/-- The top-level catch: a thrown StorageError becomes its XML response. -/
def wrap (o : HOut) : Out :=
  match o.result with
  | HResult.ok r => { response := r, effects := o.effects, r2 := o.r2 }
  | HResult.err e => { response := formatErrorResponse e, effects := o.effects, r2 := o.r2 }

/-- The worker's fetch entry point: classify the hostname, derive the object
key, validateAuth (write-classified hostnames require a truthy Authorization
header for every method), then route by method; PUT/DELETE additionally
require the write classification. -/
def workerFetch (env : Env) (req : Request) : Out :=
  let isWrite := env.writeTest req.hostname
  let key := objectKeyOf req.path
  if isWrite && !(truthyS (hget req.headers "Authorization")) then
    { response := formatErrorResponse
        { message := "Authentication required", status := 401, code := "AccessDenied" },
      effects := [], r2 := env.r2 }
  else if req.method = "GET" ∨ req.method = "HEAD" then
    wrap (handleGetRequest env req.method key)
  else if req.method = "PUT" then
    if isWrite then wrap (handlePutRequest env req key)
    else
      { response := formatErrorResponse
          { message := "Write operations not allowed on this endpoint",
            status := 403, code := "AccessDenied" },
        effects := [], r2 := env.r2 }
  else if req.method = "DELETE" then
    if isWrite then wrap (handleDeleteRequest env key)
    else
      { response := formatErrorResponse
          { message := "Delete operations not allowed on this endpoint",
            status := 403, code := "AccessDenied" },
        effects := [], r2 := env.r2 }
  else if req.method = "OPTIONS" then
    { response := handleOptionsRequest, effects := [], r2 := env.r2 }
  else
    { response := formatErrorResponse
        { message := "Method " ++ req.method ++ " not supported",
          status := 405, code := "MethodNotAllowed" },
      effects := [], r2 := env.r2 }

/-- The S3 error code of a response, when its body is the XML envelope. -/
def errCode (r : WireResponse) : Option String :=
  match r.body with
  | RespBody.xml c _ => some c
  | _ => none

/-- Whether an effect is a local-store put attempt. -/
def isPutEffect : Effect → Bool
  | Effect.r2Put _ _ _ => true
  | _ => false

/-- Whether an effect is a sync-queue enqueue attempt. -/
def isEnqueueEffect : Effect → Bool
  | Effect.enqueue _ _ _ _ => true
  | _ => false

/-- Whether an effect is an origin fetch. -/
def isOriginEffect : Effect → Bool
  | Effect.originFetch _ => true
  | _ => false

/-- Whether an effect is a local-store write attempt (put or delete). -/
def isStoreWriteEffect : Effect → Bool
  | Effect.r2Put _ _ _ => true
  | Effect.r2Delete _ _ => true
  | _ => false

/-! Concrete environments and requests used to evaluate the worker. -/

/-- A baseline environment: empty local store, unreachable origin, the
default hostname patterns, all collaborators healthy. -/
def envBase : Env :=
  { r2 := [],
    origin := fun _ => OriginResult.netError,
    endpoint := "https://origin.example",
    bucketName := "bkt",
    writeTest := fun h => strStarts h "write-",
    putFails := false, deleteFails := false, enqueueFails := false,
    etagOf := fun b => "etag-" ++ toString b,
    now := "2026-01-01T00:00:00.000Z" }

/-- A plain stored object used in scenarios. -/
def objA : R2Object :=
  { body := 9,
    httpEtag := some "etag-9",
    httpMetadata :=
      { contentType := some "text/plain", contentLength := none, cacheControl := none },
    customMetadata := [],
    uploaded := some "2025-12-31T00:00:00.000Z" }

/-- Environment whose origin serves images/logo.png as a PNG with etag abc. -/
def envC2 : Env :=
  { envBase with
    origin := fun k =>
      if k = "images/logo.png" then
        OriginResult.resp 200 [("Content-Type", "image/png"), ("ETag", "\"abc\"")] 5
      else OriginResult.netError }

/-- GET for images/logo.png on a read-designated host. -/
def reqC2 : Request :=
  { method := "GET", hostname := "read-host.example", path := "/images/logo.png",
    headers := [], body := 0 }

/-- First GET: local miss, origin hit, write-back. -/
def outC2a : Out := workerFetch envC2 reqC2

/-- The same environment after the first GET populated the store. -/
def envC2b : Env := { envC2 with r2 := outC2a.r2 }

/-- Second GET for the same key. -/
def outC2b : Out := workerFetch envC2b reqC2

/-- The simulated object fetchFromSourceStorage builds for images/logo.png
in envC2. -/
def objLogo : R2Object :=
  { body := 5,
    httpEtag := some "\"abc\"",
    httpMetadata :=
      { contentType := some "image/png", contentLength := none, cacheControl := none },
    customMetadata := [("source", "lazy-loaded")],
    uploaded := none }

/-- envC2 with a failing local-store put, for the write-back-failure path. -/
def envC5 : Env := { envC2 with putFails := true }

/-- A store already holding key a. -/
def envA : Env := { envBase with r2 := [("a", objA)] }

/-- GET for a stored key on a write-classified host without credentials. -/
def reqC1ce : Request :=
  { method := "GET", hostname := "write-host.example", path := "/a",
    headers := [], body := 0 }

/-- GET for a missing key on a read-classified host. -/
def reqC1w : Request :=
  { method := "GET", hostname := "read-host.example", path := "/a",
    headers := [], body := 0 }

/-- Environment whose origin serves video.mp4, for the stream-sharing check. -/
def envC3 : Env :=
  { envBase with
    origin := fun k =>
      if k = "video.mp4" then
        OriginResult.resp 200 [("Content-Type", "video/mp4")] 7
      else OriginResult.netError }

/-- GET for video.mp4 on a read-classified host. -/
def reqC3 : Request :=
  { method := "GET", hostname := "read-host.example", path := "/video.mp4",
    headers := [], body := 0 }

/-- Authorized PUT with an empty object key on a write-classified host. -/
def reqC8ce : Request :=
  { method := "PUT", hostname := "write-host.example", path := "/",
    headers := [("Authorization", "AWS cred")], body := 3 }

/-- Authorized PUT with a non-empty key on a write-classified host. -/
def reqC8w : Request :=
  { method := "PUT", hostname := "write-host.example", path := "/k",
    headers := [("Authorization", "AWS cred")], body := 3 }

/-- GET with an empty path on a write-classified host, no credentials. -/
def reqC9ce : Request :=
  { method := "GET", hostname := "write-host.example", path := "/",
    headers := [], body := 0 }

/-- Authorized DELETE with an empty key on a write-classified host. -/
def reqC9w : Request :=
  { method := "DELETE", hostname := "write-host.example", path := "/",
    headers := [("Authorization", "AWS cred")], body := 0 }

/-- Authorized DELETE for key k on a write-classified host. -/
def reqC10 : Request :=
  { method := "DELETE", hostname := "write-host.example", path := "/k",
    headers := [("Authorization", "AWS cred")], body := 0 }

example : outC2a.response.status = 200 := by decide
example : hget outC2a.response.headers "Content-Type" = some "image/png" := by decide
example : hget outC2a.response.headers "ETag" = some "\"abc\"" := by decide
example : hget outC2a.response.headers "x-amz-meta-source" = some "lazy-loaded" := by decide
example : outC2a.effects =
    [Effect.r2Get "images/logo.png", Effect.originFetch "images/logo.png",
     Effect.r2Put "images/logo.png" 5 true,
     Effect.enqueue "images/logo.png" "LAZY_LOADED" envBase.now true] := by decide
example : outC2b.effects = [Effect.r2Get "images/logo.png"] := by decide
example : hget outC2b.response.headers "x-amz-meta-source" = some "lazy-loaded" := by decide
example : outC2b.response.body = RespBody.stream 5 := by decide

/-! Shared lemmas. -/

/-- The origin fetch ignores the enqueue-failure flag. -/
theorem fetch_enqueue_irrel (env : Env) (b : Bool) (key : String) :
    fetchFromSourceStorage { env with enqueueFails := b } key =
      fetchFromSourceStorage env key := rfl

/-- A failing origin (non-2xx or network error) makes the fetch return null
with just the fetch attempt in the trace. -/
theorem fetch_of_originFailed (env : Env) (key : String)
    (hend : env.endpoint ≠ "") (hfail : originFailed env key = true) :
    fetchFromSourceStorage env key = (none, [Effect.originFetch key]) := by
  unfold fetchFromSourceStorage
  rw [if_neg hend]
  unfold originFailed at hfail
  cases ho : env.origin key with
  | netError => simp only [ho]
  | resp s hs b =>
    simp only [ho] at hfail ⊢
    rw [if_neg (of_decide_eq_true hfail)]

/-- The GET path never produces an AccessDenied error code. -/
theorem get_never_denied (env : Env) (m key : String) :
    errCode (wrap (handleGetRequest env m key)).response ≠ some "AccessDenied" := by
  unfold handleGetRequest
  split
  · simp [wrap, formatErrorResponse, errCode]
  · split
    · unfold objectResponse
      split <;> simp [wrap, errCode]
    · split
      · simp [wrap, formatErrorResponse, errCode]
      · split
        · unfold objectResponse
          split <;> simp [wrap, errCode]
        · simp [wrap, formatErrorResponse, errCode]

/-! Claim theorems. -/

/-- Claim C6: for every key present in the local store, resolution returns
that object immediately: the trace is exactly the local get, the store is
unchanged, and no origin fetch, write-back or sync enqueue occurs. -/
theorem claim_C6_local_hit (env : Env) (m key : String) (obj : R2Object)
    (hk : key ≠ "") (hfound : assocGet env.r2 key = some obj) :
    handleGetRequest env m key =
      { result := HResult.ok (objectResponse env m obj),
        effects := [Effect.r2Get key], r2 := env.r2 } := by
  simp [handleGetRequest, hk, hfound]

/-- Witness for C6 at a concrete store holding key a. -/
theorem claim_C6_local_hit_witness :
    ("a" ≠ "" ∧ assocGet envA.r2 "a" = some objA) ∧
    handleGetRequest envA "GET" "a" =
      { result := HResult.ok (objectResponse envA "GET" objA),
        effects := [Effect.r2Get "a"], r2 := envA.r2 } :=
  ⟨⟨by decide, by decide⟩, claim_C6_local_hit envA "GET" "a" objA (by decide) (by decide)⟩

/-- Claim C4: when the key misses locally and the origin fetch fails
(network error or non-2xx), the resolution is NoSuchKey(404) with no store
write and no propagated origin error, and it equals the resolution in an
environment where the origin simply answers 404 (absent from both). -/
theorem claim_C4_origin_failure_is_miss (env : Env) (m key : String)
    (hk : key ≠ "") (hmiss : assocGet env.r2 key = none)
    (hend : env.endpoint ≠ "") (hfail : originFailed env key = true) :
    handleGetRequest env m key =
      { result := HResult.err
          { message := "Object not found", status := 404, code := "NoSuchKey" },
        effects := [Effect.r2Get key, Effect.originFetch key], r2 := env.r2 } ∧
    handleGetRequest env m key =
      handleGetRequest { env with origin := fun _ => OriginResult.resp 404 [] 0 } m key := by
  have hf := fetch_of_originFailed env key hend hfail
  have h1 : handleGetRequest env m key =
      { result := HResult.err
          { message := "Object not found", status := 404, code := "NoSuchKey" },
        effects := [Effect.r2Get key, Effect.originFetch key], r2 := env.r2 } := by
    simp [handleGetRequest, hk, hmiss, hend, hf]
  have h2 : handleGetRequest { env with origin := fun _ => OriginResult.resp 404 [] 0 } m key =
      { result := HResult.err
          { message := "Object not found", status := 404, code := "NoSuchKey" },
        effects := [Effect.r2Get key, Effect.originFetch key], r2 := env.r2 } := by
    simp [handleGetRequest, hk, hmiss, hend, fetchFromSourceStorage]
  exact ⟨h1, h1.trans h2.symm⟩

/-- Witness for C4 at a concrete unreachable origin. -/
theorem claim_C4_origin_failure_is_miss_witness :
    ("k" ≠ "" ∧ assocGet envBase.r2 "k" = none ∧ envBase.endpoint ≠ "" ∧
      originFailed envBase "k" = true) ∧
    (handleGetRequest envBase "GET" "k" =
      { result := HResult.err
          { message := "Object not found", status := 404, code := "NoSuchKey" },
        effects := [Effect.r2Get "k", Effect.originFetch "k"], r2 := envBase.r2 } ∧
    handleGetRequest envBase "GET" "k" =
      handleGetRequest { envBase with origin := fun _ => OriginResult.resp 404 [] 0 } "GET" "k") :=
  ⟨⟨by decide, by decide, by decide, by decide⟩,
   claim_C4_origin_failure_is_miss envBase "GET" "k" (by decide) (by decide) (by decide) (by decide)⟩

/-- Claim C5: when the origin fetch succeeds but the write-back put fails,
the fetched object is still returned with a 200, and the store is left
unchanged (the population side effect is lost, the read is unaffected). -/
theorem claim_C5_writeback_failure_absorbed (env : Env) (key : String) (obj : R2Object)
    (hk : key ≠ "") (hmiss : assocGet env.r2 key = none) (hend : env.endpoint ≠ "")
    (hfetch : fetchFromSourceStorage env key = (some obj, [Effect.originFetch key]))
    (hpf : env.putFails = true) :
    (handleGetRequest env "GET" key).result =
      HResult.ok { status := 200, headers := getResponseHeaders env obj,
                   body := RespBody.stream obj.body } ∧
    (handleGetRequest env "GET" key).r2 = env.r2 := by
  simp [handleGetRequest, hk, hmiss, hend, hfetch, storeObjectInR2, hpf, objectResponse]

/-- Witness for C5 at the concrete logo scenario with a failing put. -/
theorem claim_C5_writeback_failure_absorbed_witness :
    ("images/logo.png" ≠ "" ∧ assocGet envC5.r2 "images/logo.png" = none ∧
      envC5.endpoint ≠ "" ∧
      fetchFromSourceStorage envC5 "images/logo.png" =
        (some objLogo, [Effect.originFetch "images/logo.png"]) ∧
      envC5.putFails = true) ∧
    ((handleGetRequest envC5 "GET" "images/logo.png").result =
      HResult.ok { status := 200, headers := getResponseHeaders envC5 objLogo,
                   body := RespBody.stream objLogo.body } ∧
    (handleGetRequest envC5 "GET" "images/logo.png").r2 = envC5.r2) :=
  ⟨⟨by decide, by decide, by decide, by decide, by decide⟩,
   claim_C5_writeback_failure_absorbed envC5 "images/logo.png" objLogo
     (by decide) (by decide) (by decide) (by decide) (by decide)⟩

/-- Claim C7: a resolution that hits the origin makes exactly one local-store
put attempt and exactly one sync enqueue attempt, the latter always with
action LAZY_LOADED (regardless of the populate outcome), and the enqueue
outcome never changes the result returned to the client. -/
theorem claim_C7_single_effects (env : Env) (m key : String) (obj : R2Object)
    (hk : key ≠ "") (hmiss : assocGet env.r2 key = none) (hend : env.endpoint ≠ "")
    (hfetch : fetchFromSourceStorage env key = (some obj, [Effect.originFetch key])) :
    ((handleGetRequest env m key).effects.filter isPutEffect).length = 1 ∧
    (handleGetRequest env m key).effects.filter isEnqueueEffect =
      [Effect.enqueue key "LAZY_LOADED" env.now (!env.enqueueFails)] ∧
    ∀ b : Bool, (handleGetRequest { env with enqueueFails := b } m key).result =
      (handleGetRequest env m key).result := by
  refine ⟨?_, ?_, ?_⟩
  · cases hp : env.putFails <;> cases he : env.enqueueFails <;>
      simp [handleGetRequest, hk, hmiss, hend, hfetch, storeObjectInR2, queueSyncTask,
        hp, he, isPutEffect, isEnqueueEffect, List.filter]
  · cases hp : env.putFails <;> cases he : env.enqueueFails <;>
      simp [handleGetRequest, hk, hmiss, hend, hfetch, storeObjectInR2, queueSyncTask,
        hp, he, isPutEffect, isEnqueueEffect, List.filter]
  · intro b
    have hfetch' : fetchFromSourceStorage { env with enqueueFails := b } key =
        (some obj, [Effect.originFetch key]) :=
      (fetch_enqueue_irrel env b key).trans hfetch
    simp [handleGetRequest, hk, hmiss, hend, hfetch, hfetch', objectResponse,
      getResponseHeaders]

/-- Witness for C7 at the concrete logo scenario. -/
theorem claim_C7_single_effects_witness :
    ("images/logo.png" ≠ "" ∧ assocGet envC2.r2 "images/logo.png" = none ∧
      envC2.endpoint ≠ "" ∧
      fetchFromSourceStorage envC2 "images/logo.png" =
        (some objLogo, [Effect.originFetch "images/logo.png"])) ∧
    (((handleGetRequest envC2 "GET" "images/logo.png").effects.filter isPutEffect).length = 1 ∧
    (handleGetRequest envC2 "GET" "images/logo.png").effects.filter isEnqueueEffect =
      [Effect.enqueue "images/logo.png" "LAZY_LOADED" envC2.now (!envC2.enqueueFails)] ∧
    ∀ b : Bool,
      (handleGetRequest { envC2 with enqueueFails := b } "GET" "images/logo.png").result =
        (handleGetRequest envC2 "GET" "images/logo.png").result) :=
  ⟨⟨by decide, by decide, by decide, by decide⟩,
   claim_C7_single_effects envC2 "GET" "images/logo.png" objLogo
     (by decide) (by decide) (by decide) (by decide)⟩

/-- Claim C1 counterexample: a GET on a write-pattern hostname with no
Authorization header is answered AccessDenied(401) with no store
interaction, although the requested key is present in the local store: the
response is not determined by store contents, and reads do require
authorization on write-classified hostnames. -/
theorem claim_C1_counterexample :
    envA.writeTest reqC1ce.hostname = true ∧
    reqC1ce.method = "GET" ∧
    hget reqC1ce.headers "Authorization" = none ∧
    assocGet envA.r2 (objectKeyOf reqC1ce.path) = some objA ∧
    (workerFetch envA reqC1ce).response.status = 401 ∧
    errCode (workerFetch envA reqC1ce).response = some "AccessDenied" ∧
    (workerFetch envA reqC1ce).effects = [] := by
  refine ⟨by decide, by decide, by decide, by decide, by decide, by decide, by decide⟩

/-- Claim C1 as amended: every GET or HEAD that passes the pre-routing auth
gate (hostname not write-classified, or Authorization header present) is
dispatched to cache resolution regardless of the intent classification, its
response is never AccessDenied, and it is independent of the hostname and
request headers: any gate-passing request with the same method and path gets
the identical outcome. -/
theorem claim_C1_amended (env : Env) (req : Request)
    (hm : req.method = "GET" ∨ req.method = "HEAD")
    (hgate : env.writeTest req.hostname = false ∨
      truthyS (hget req.headers "Authorization") = true) :
    workerFetch env req = wrap (handleGetRequest env req.method (objectKeyOf req.path)) ∧
    errCode (workerFetch env req).response ≠ some "AccessDenied" ∧
    ∀ req' : Request, req'.method = req.method → req'.path = req.path →
      (env.writeTest req'.hostname = false ∨
        truthyS (hget req'.headers "Authorization") = true) →
      workerFetch env req' = workerFetch env req := by
  have dispatch : ∀ r : Request, r.method = "GET" ∨ r.method = "HEAD" →
      (env.writeTest r.hostname = false ∨ truthyS (hget r.headers "Authorization") = true) →
      workerFetch env r = wrap (handleGetRequest env r.method (objectKeyOf r.path)) := by
    intro r hrm hrg
    have hcond : (env.writeTest r.hostname && !(truthyS (hget r.headers "Authorization"))) = false := by
      rcases hrg with h | h <;> simp [h]
    rcases hrm with h | h <;> simp [workerFetch, hcond, h]
  have h1 := dispatch req hm hgate
  refine ⟨h1, ?_, ?_⟩
  · rw [h1]; exact get_never_denied env req.method (objectKeyOf req.path)
  · intro req' hm' hp' hgate'
    have h2 := dispatch req' (by rw [hm']; exact hm) hgate'
    rw [h2, h1, hm', hp']

/-- Witness for C1 as amended: a GET on a read-classified host. -/
theorem claim_C1_amended_witness :
    ((reqC1w.method = "GET" ∨ reqC1w.method = "HEAD") ∧
      (envBase.writeTest reqC1w.hostname = false ∨
        truthyS (hget reqC1w.headers "Authorization") = true)) ∧
    (workerFetch envBase reqC1w =
      wrap (handleGetRequest envBase reqC1w.method (objectKeyOf reqC1w.path)) ∧
    errCode (workerFetch envBase reqC1w).response ≠ some "AccessDenied" ∧
    ∀ req' : Request, req'.method = reqC1w.method → req'.path = reqC1w.path →
      (envBase.writeTest req'.hostname = false ∨
        truthyS (hget req'.headers "Authorization") = true) →
      workerFetch envBase req' = workerFetch envBase reqC1w) :=
  ⟨⟨Or.inl (by decide), Or.inl (by decide)⟩,
   claim_C1_amended envBase reqC1w (Or.inl (by decide)) (Or.inl (by decide))⟩

/-- Claim C2 counterexample: in the concrete logo scenario, the second GET
does not carry a `local` origin tag; the stored object still carries
customMetadata source=lazy-loaded, so the response repeats
x-amz-meta-source: lazy-loaded and no header value is `local`. -/
theorem claim_C2_counterexample :
    hget outC2b.response.headers "x-amz-meta-source" = some "lazy-loaded" ∧
    outC2b.response.headers.all (fun p => p.2 ≠ "local") = true := by
  refine ⟨by decide, by decide⟩

/-- Claim C2 as amended: the first GET for images/logo.png (absent locally,
present in the origin as a PNG with ETag "abc") answers 200 with
Content-Type image/png, ETag "abc" and x-amz-meta-source lazy-loaded; the
second GET answers 200 with the same body from the local store, makes no
origin call, and still carries the lazy-loaded source tag (not `local`). -/
theorem claim_C2_amended :
    outC2a.response.status = 200 ∧
    hget outC2a.response.headers "Content-Type" = some "image/png" ∧
    hget outC2a.response.headers "ETag" = some "\"abc\"" ∧
    hget outC2a.response.headers "x-amz-meta-source" = some "lazy-loaded" ∧
    outC2a.response.body = RespBody.stream 5 ∧
    outC2b.response.status = 200 ∧
    outC2b.response.body = RespBody.stream 5 ∧
    hget outC2b.response.headers "x-amz-meta-source" = some "lazy-loaded" ∧
    outC2b.effects.filter isOriginEffect = [] ∧
    outC2b.effects = [Effect.r2Get "images/logo.png"] := by
  refine ⟨by decide, by decide, by decide, by decide, by decide, by decide, by decide,
    by decide, by decide, by decide⟩

/-- Claim C3, evaluated at the failing input: on a lazy-loading GET the very
same body stream (id 7) is recorded as handed to the local-store write-back
put and is also the body of the client response; nothing is teed or
buffered, so the single-consume stream reaches both consumers. -/
theorem claim_C3_same_stream_both_consumers :
    Effect.r2Put "video.mp4" 7 true ∈ (workerFetch envC3 reqC3).effects ∧
    (workerFetch envC3 reqC3).response.body = RespBody.stream 7 := by
  refine ⟨by decide, by decide⟩

/-- Claim C8 counterexample: an authorized PUT (write-classified host,
Authorization present) whose path yields an empty key fails with
InvalidKey(400) and performs no store operation, so the underlying store
operation does not proceed for every authorized write. -/
theorem claim_C8_counterexample :
    envBase.writeTest reqC8ce.hostname = true ∧
    truthyS (hget reqC8ce.headers "Authorization") = true ∧
    reqC8ce.method = "PUT" ∧
    (workerFetch envBase reqC8ce).response.status = 400 ∧
    errCode (workerFetch envBase reqC8ce).response = some "InvalidKey" ∧
    (workerFetch envBase reqC8ce).effects = [] := by
  refine ⟨by decide, by decide, by decide, by decide, by decide, by decide⟩

/-- Claim C8 as amended: for every PUT or DELETE, a non-write-classified
hostname means AccessDenied(403) regardless of credentials; a
write-classified hostname without Authorization means AccessDenied(401); and
a write-classified hostname with Authorization and a non-empty key makes the
underlying store write attempt proceed. -/
theorem claim_C8_amended (env : Env) (req : Request)
    (hm : req.method = "PUT" ∨ req.method = "DELETE") :
    (env.writeTest req.hostname = false →
      (workerFetch env req).response.status = 403 ∧
      errCode (workerFetch env req).response = some "AccessDenied") ∧
    (env.writeTest req.hostname = true →
      truthyS (hget req.headers "Authorization") = false →
      (workerFetch env req).response.status = 401 ∧
      errCode (workerFetch env req).response = some "AccessDenied") ∧
    (env.writeTest req.hostname = true →
      truthyS (hget req.headers "Authorization") = true →
      objectKeyOf req.path ≠ "" →
      ∃ e, e ∈ (workerFetch env req).effects ∧ isStoreWriteEffect e = true) := by
  refine ⟨?_, ?_, ?_⟩
  · intro hw
    rcases hm with h | h <;>
      simp [workerFetch, h, hw, errCode, formatErrorResponse]
  · intro hw ha
    rcases hm with h | h <;>
      simp [workerFetch, h, hw, ha, errCode, formatErrorResponse]
  · intro hw ha hk
    rcases hm with h | h
    · cases hp : env.putFails
      · exact ⟨Effect.r2Put (objectKeyOf req.path) req.body true, by
          simp [workerFetch, h, hw, ha, handlePutRequest, hk, hp, wrap, queueSyncTask,
            isStoreWriteEffect]⟩
      · exact ⟨Effect.r2Put (objectKeyOf req.path) req.body false, by
          simp [workerFetch, h, hw, ha, handlePutRequest, hk, hp, wrap, isStoreWriteEffect]⟩
    · cases hd : env.deleteFails
      · exact ⟨Effect.r2Delete (objectKeyOf req.path) true, by
          simp [workerFetch, h, hw, ha, handleDeleteRequest, hk, hd, wrap, queueSyncTask,
            isStoreWriteEffect]⟩
      · exact ⟨Effect.r2Delete (objectKeyOf req.path) false, by
          simp [workerFetch, h, hw, ha, handleDeleteRequest, hk, hd, wrap, isStoreWriteEffect]⟩

/-- Witness for C8 as amended: a concrete authorized PUT of key k. -/
theorem claim_C8_amended_witness :
    (reqC8w.method = "PUT" ∨ reqC8w.method = "DELETE") ∧
    ((envBase.writeTest reqC8w.hostname = false →
      (workerFetch envBase reqC8w).response.status = 403 ∧
      errCode (workerFetch envBase reqC8w).response = some "AccessDenied") ∧
    (envBase.writeTest reqC8w.hostname = true →
      truthyS (hget reqC8w.headers "Authorization") = false →
      (workerFetch envBase reqC8w).response.status = 401 ∧
      errCode (workerFetch envBase reqC8w).response = some "AccessDenied") ∧
    (envBase.writeTest reqC8w.hostname = true →
      truthyS (hget reqC8w.headers "Authorization") = true →
      objectKeyOf reqC8w.path ≠ "" →
      ∃ e, e ∈ (workerFetch envBase reqC8w).effects ∧ isStoreWriteEffect e = true)) :=
  ⟨Or.inl (by decide), claim_C8_amended envBase reqC8w (Or.inl (by decide))⟩

/-- Claim C9 counterexample: a GET with empty path on a write-classified
host without Authorization is answered AccessDenied(401), not
NotImplemented(501), so the empty-key GET is not 501 on every host. -/
theorem claim_C9_counterexample :
    reqC9ce.method = "GET" ∧
    objectKeyOf reqC9ce.path = "" ∧
    (workerFetch envBase reqC9ce).response.status = 401 ∧
    errCode (workerFetch envBase reqC9ce).response = some "AccessDenied" := by
  refine ⟨by decide, by decide, by decide, by decide⟩

/-- Claim C9 as amended: for a request whose path yields an empty key and
which passes the pre-routing gates, a GET or HEAD fails with
NotImplemented(501), and a PUT or DELETE (write-classified and authorized)
fails with InvalidKey(400). -/
theorem claim_C9_amended (env : Env) (req : Request)
    (hk : objectKeyOf req.path = "") :
    ((req.method = "GET" ∨ req.method = "HEAD") →
      (env.writeTest req.hostname = false ∨
        truthyS (hget req.headers "Authorization") = true) →
      (workerFetch env req).response.status = 501 ∧
      errCode (workerFetch env req).response = some "NotImplemented") ∧
    ((req.method = "PUT" ∨ req.method = "DELETE") →
      env.writeTest req.hostname = true →
      truthyS (hget req.headers "Authorization") = true →
      (workerFetch env req).response.status = 400 ∧
      errCode (workerFetch env req).response = some "InvalidKey") := by
  constructor
  · intro hm hgate
    have hcond : (env.writeTest req.hostname &&
        !(truthyS (hget req.headers "Authorization"))) = false := by
      rcases hgate with h | h <;> simp [h]
    rcases hm with h | h <;>
      simp [workerFetch, hcond, h, handleGetRequest, hk, wrap, formatErrorResponse, errCode]
  · intro hm hw ha
    rcases hm with h | h <;>
      simp [workerFetch, h, hw, ha, hk, handlePutRequest, handleDeleteRequest, wrap,
        formatErrorResponse, errCode]

/-- Witness for C9 as amended: a concrete authorized empty-key DELETE. -/
theorem claim_C9_amended_witness :
    objectKeyOf reqC9w.path = "" ∧
    (((reqC9w.method = "GET" ∨ reqC9w.method = "HEAD") →
      (envBase.writeTest reqC9w.hostname = false ∨
        truthyS (hget reqC9w.headers "Authorization") = true) →
      (workerFetch envBase reqC9w).response.status = 501 ∧
      errCode (workerFetch envBase reqC9w).response = some "NotImplemented") ∧
    ((reqC9w.method = "PUT" ∨ reqC9w.method = "DELETE") →
      envBase.writeTest reqC9w.hostname = true →
      truthyS (hget reqC9w.headers "Authorization") = true →
      (workerFetch envBase reqC9w).response.status = 400 ∧
      errCode (workerFetch envBase reqC9w).response = some "InvalidKey")) :=
  ⟨by decide, claim_C9_amended envBase reqC9w (by decide)⟩

/-- Claim C10: an authorized DELETE with write intent and a non-empty key
(with the store delete succeeding) answers 204 with an empty body, makes
exactly one delete and one DELETED sync enqueue attempt, and its response
and effects are identical for every possible local-store content: existence
is never checked. -/
theorem claim_C10_delete_blind (env : Env) (req : Request)
    (hm : req.method = "DELETE")
    (hw : env.writeTest req.hostname = true)
    (ha : truthyS (hget req.headers "Authorization") = true)
    (hk : objectKeyOf req.path ≠ "")
    (hdf : env.deleteFails = false) :
    (workerFetch env req).response =
      { status := 204, headers := [], body := RespBody.empty } ∧
    (workerFetch env req).effects =
      [Effect.r2Delete (objectKeyOf req.path) true,
       Effect.enqueue (objectKeyOf req.path) "DELETED" env.now (!env.enqueueFails)] ∧
    ∀ r2s : List (String × R2Object),
      (workerFetch { env with r2 := r2s } req).response = (workerFetch env req).response ∧
      (workerFetch { env with r2 := r2s } req).effects = (workerFetch env req).effects := by
  refine ⟨?_, ?_, ?_⟩
  · simp [workerFetch, hm, hw, ha, handleDeleteRequest, hk, hdf, wrap, queueSyncTask]
  · cases he : env.enqueueFails <;>
      simp [workerFetch, hm, hw, ha, handleDeleteRequest, hk, hdf, he, wrap, queueSyncTask]
  · intro r2s
    constructor <;>
      simp [workerFetch, hm, hw, ha, handleDeleteRequest, hk, hdf, wrap, queueSyncTask]

/-- Witness for C10: a concrete authorized DELETE of key k. -/
theorem claim_C10_delete_blind_witness :
    (reqC10.method = "DELETE" ∧ envBase.writeTest reqC10.hostname = true ∧
      truthyS (hget reqC10.headers "Authorization") = true ∧
      objectKeyOf reqC10.path ≠ "" ∧ envBase.deleteFails = false) ∧
    ((workerFetch envBase reqC10).response =
      { status := 204, headers := [], body := RespBody.empty } ∧
    (workerFetch envBase reqC10).effects =
      [Effect.r2Delete (objectKeyOf reqC10.path) true,
       Effect.enqueue (objectKeyOf reqC10.path) "DELETED" envBase.now (!envBase.enqueueFails)] ∧
    ∀ r2s : List (String × R2Object),
      (workerFetch { envBase with r2 := r2s } reqC10).response =
        (workerFetch envBase reqC10).response ∧
      (workerFetch { envBase with r2 := r2s } reqC10).effects =
        (workerFetch envBase reqC10).effects) :=
  ⟨⟨by decide, by decide, by decide, by decide, by decide⟩,
   claim_C10_delete_blind envBase reqC10 (by decide) (by decide) (by decide)
     (by decide) (by decide)⟩

end TransparentProxy
